import Mathlib

/-!
Verification of the REST (long-poll) transport of the jarust Janus client,
`jarust_transport/src/interface/restful_interface.rs`, against its
specification. The Rust code is shallowly embedded: each async operation
becomes a pure function of its inputs together with the outcome of its HTTP
effects (an `Except` value standing for the `?`-propagated results of
`send()`/`json()`), and the JSON values manipulated with `serde_json` become
an inductive `Json` type whose object operations mirror `serde_json::Value`
indexing.
-/

set_option autoImplicit false

namespace Jarust

/-- Model of `serde_json::Value`: null, booleans, numbers, strings, arrays
and objects.  Objects are association lists with unique keys (serde_json
maps cannot hold duplicate keys); numbers are collapsed to `Int`, which is
enough for every field the transport inspects. -/
inductive Json where
  | null
  | bool (b : Bool)
  | num (n : Int)
  | str (s : String)
  | arr (elems : List Json)
  | obj (fields : List (String × Json))

/-- Replace the value under `key` if present (first occurrence), otherwise
append the binding at the end: the effect of `map.insert(key, v)` on a
serde_json object map. -/
def setField : List (String × Json) → String → Json → List (String × Json)
  | [], key, v => [(key, v)]
  | (k, w) :: rest, key, v =>
    if k = key then (key, v) :: rest else (k, w) :: setField rest key v

/-- First binding under `key`, the effect of `map.get(key)`. -/
def getField : List (String × Json) → String → Option Json
  | [], _ => none
  | (k, v) :: rest, key => if k = key then some v else getField rest key

/-- Remove every binding under `key`, the effect of `map.remove(key)` on a
unique-key map. -/
def removeField : List (String × Json) → String → List (String × Json)
  | [], _ => []
  | (k, v) :: rest, key =>
    if k = key then removeField rest key else (k, v) :: removeField rest key

/-- Number of bindings under `key` (1 on any serde_json-produced object that
contains the key, 0 otherwise). -/
def countField : List (String × Json) → String → Nat
  | [], _ => 0
  | (k, _) :: rest, key => (if k = key then 1 else 0) + countField rest key

/-- Model of `value[key] = v` (`IndexMut<&str>` on `serde_json::Value`):
inserts into an object; treats `Null` as an empty object, as serde_json
does.  On any other variant serde_json panics; every call site in the
transport passes an object built by `json!({...})`, so that arm is
unreachable and modelled as the identity. -/
def Json.setKey : Json → String → Json → Json
  | .obj fields, key, v => .obj (setField fields key v)
  | .null, key, v => .obj [(key, v)]
  | j, _, _ => j

/-- Model of `value.get(key)` on `serde_json::Value`. -/
def Json.getKey : Json → String → Option Json
  | .obj fields, key => getField fields key
  | _, _ => none

/-- Model of removing `key` from a JSON object (`map.remove(key)`);
identity on non-objects. -/
def Json.removeKey : Json → String → Json
  | .obj fields, key => .obj (removeField fields key)
  | j, _ => j

/-- Number of `key` fields carried by a JSON value. -/
def Json.countKey : Json → String → Nat
  | .obj fields, key => countField fields key
  | _, _ => 0

/-- Whether the value is a JSON object. -/
def Json.isObj : Json → Bool
  | .obj _ => true
  | _ => false

/-- The transaction decoration of `RestfulInterface::decorate_request`
(restful_interface.rs lines 56-67).  The pluggable transaction generator is
modelled by passing the freshly generated token `transaction` as an
argument; `apisecret` is the transport's configured secret.  If a secret is
configured it is written under `"apisecret"` first, then the transaction is
stamped under `"transaction"`, and the token is returned alongside the
decorated request. -/
def decorate_request (apisecret : Option String) (transaction : String)
    (request : Json) : Json × String :=
  let request :=
    match apisecret with
    | some secret => request.setKey "apisecret" (.str secret)
    | none => request
  (request.setKey "transaction" (.str transaction), transaction)

/- Association-list lemmas used to reason about decoration and merging. -/

theorem getField_setField_self (fields : List (String × Json)) (key : String) (v : Json) :
    getField (setField fields key v) key = some v := by
  induction fields with
  | nil => simp [setField, getField]
  | cons kv rest ih =>
    obtain ⟨k, w⟩ := kv
    by_cases h : k = key
    · simp [setField, getField, h]
    · simp [setField, getField, h, ih]

theorem getField_setField_ne (fields : List (String × Json)) (k key : String) (v : Json)
    (h : k ≠ key) : getField (setField fields key v) k = getField fields k := by
  induction fields with
  | nil => simp [setField, getField, Ne.symm h]
  | cons kv rest ih =>
    obtain ⟨k', w⟩ := kv
    by_cases hk : k' = key
    · subst hk
      simp [setField, getField, Ne.symm h]
    · simp only [setField, if_neg hk, getField]
      by_cases hk' : k' = k
      · simp [hk']
      · simp [hk', ih]

theorem setField_of_getField_none (fields : List (String × Json)) (key : String) (v : Json)
    (h : getField fields key = none) : setField fields key v = fields ++ [(key, v)] := by
  induction fields with
  | nil => simp [setField]
  | cons kv rest ih =>
    obtain ⟨k, w⟩ := kv
    by_cases hk : k = key
    · simp [getField, hk] at h
    · simp only [getField, if_neg hk] at h
      simp [setField, hk, ih h]

theorem removeField_of_getField_none (fields : List (String × Json)) (key : String)
    (h : getField fields key = none) : removeField fields key = fields := by
  induction fields with
  | nil => rfl
  | cons kv rest ih =>
    obtain ⟨k, w⟩ := kv
    by_cases hk : k = key
    · simp [getField, hk] at h
    · simp only [getField, if_neg hk] at h
      simp [removeField, hk, ih h]

theorem countField_setField_self (fields : List (String × Json)) (key : String) (v : Json)
    (h : countField fields key ≤ 1) : countField (setField fields key v) key = 1 := by
  induction fields with
  | nil => simp [setField, countField]
  | cons kv rest ih =>
    obtain ⟨k, w⟩ := kv
    by_cases hk : k = key
    · subst hk
      have h1 : countField rest k = 0 := by
        simp [countField] at h
        omega
      simp [setField, countField, h1]
    · simp only [countField, if_neg hk] at h
      have h1 := ih (by omega)
      simp [setField, hk, countField, h1]

theorem isObj_setKey (j : Json) (key : String) (v : Json) (h : j.isObj = true) :
    (j.setKey key v).isObj = true := by
  cases j <;> simp_all [Json.isObj, Json.setKey]

theorem getKey_setKey_self (j : Json) (key : String) (v : Json) (h : j.isObj = true) :
    (j.setKey key v).getKey key = some v := by
  cases j <;> simp_all [Json.isObj, Json.setKey, Json.getKey, getField_setField_self]

theorem getKey_setKey_ne (j : Json) (k key : String) (v : Json) (h : k ≠ key) :
    (j.setKey key v).getKey k = j.getKey k := by
  cases j with
  | null => simp [Json.setKey, Json.getKey, getField, Ne.symm h]
  | bool b => rfl
  | num n => rfl
  | str s => rfl
  | arr elems => rfl
  | obj fields => simp [Json.setKey, Json.getKey, getField_setField_ne _ _ _ _ h]

/-- Modelled from the spec: the `error {code, reason}` payload of a Janus
reply (§3, §6; the defining module `japrotocol.rs` is not under src/). -/
structure ErrorPayload where
  code : Int
  reason : String

/-- Modelled from the spec: the `data {id}` payload of a session/handle
creation `Success` reply (§6); ids are 64-bit unsigned, modelled as `Nat`. -/
structure DataId where
  id : Nat

/-- Modelled from the spec: the two shapes of a `Success` reply,
`data{id}` for session/handle creation and `plugindata{…}` for plugin
terminals (§3, §6; `japrotocol.rs` is not under src/). -/
inductive JaSuccessProtocol where
  | data (data : DataId)
  | plugindata (plugindata : Json)

/-- Modelled from the spec: the `janus` discriminant of a `JaResponse`
with the variants listed in §3 (`japrotocol.rs` is not under src/). -/
inductive ResponseType where
  | ack
  | success (s : JaSuccessProtocol)
  | error (error : ErrorPayload)
  | event
  | serverInfo
  | detached
  | webrtcup
  | media
  | slowlink
  | hangup
  | trickle
  | timeout
  | keepalive

/-- Modelled from the spec: the reply envelope `JaResponse` (§3).  Only the
fields the REST transport inspects are carried; the claims under proof look
solely at `janus`. -/
structure JaResponse where
  janus : ResponseType
  transaction : Option String := none
  session_id : Option Nat := none
  sender : Option Nat := none

/-- Modelled from the spec: a reply is terminal when it is a plugin
`Success`, an `Error`, or a terminal `Event` (§4.G caller selection, §8
invariant 3). -/
def ResponseType.isTerminal : ResponseType → Bool
  | .success (.plugindata _) => true
  | .error _ => true
  | .event => true
  | _ => false

/-- Outcome of one HTTP round trip (`send()` possibly followed by
`.json::<T>()`): either the decoded value or the reqwest error propagated
by the `?` operators.  reqwest errors are abstracted to their kind. -/
inductive HttpError where
  | timedOut
  | connect
  | decode

/-- Modelled from the spec: the transport error type (§7 taxonomy; the
defining `error.rs` of jarust_transport is not under src/).  Only the
variants the REST transport constructs are carried. -/
inductive JaTransportError where
  | transport (e : HttpError)
  | janusError (code : Int) (reason : String)
  | unexpectedResponse
  | incompletePacket

/-- The reply dispatch of `RestfulInterface::create` (restful_interface.rs
lines 102-135).  `reply` is the outcome of the POST to `{base}/janus` and
its JSON decoding; both `?`s propagate as a transport error.  A `Success`
with `data{id}` yields the id, an `Error` is surfaced verbatim as a
`JanusError`, anything else is `UnexpectedResponse`. -/
def create (reply : Except HttpError JaResponse) : Except JaTransportError Nat :=
  match reply with
  | .error e => .error (.transport e)
  | .ok response =>
    match response.janus with
    | .success (.data data) => .ok data.id
    | .error error => .error (.janusError error.code error.reason)
    | _ => .error .unexpectedResponse

/-- The effect of `RestfulInterface::destory` (restful_interface.rs lines
230-246) on its caller: the POST's outcome is propagated by `?`, and the
reply body — whatever it holds — is discarded without being read. -/
def destory (sendResult : Except HttpError JaResponse) : Except JaTransportError Unit :=
  match sendResult with
  | .error e => .error (.transport e)
  | .ok _ => .ok ()

/-- The reply handling of
`RestfulInterface::internal_send_msg_waiton_rsp` (restful_interface.rs
lines 295-320): the decoded HTTP reply is returned verbatim with no
inspection of its `janus` variant; the two `?`s propagate as a transport
error. -/
def internal_send_msg_waiton_rsp (reply : Except HttpError JaResponse) :
    Except JaTransportError JaResponse :=
  match reply with
  | .error e => .error (.transport e)
  | .ok response => .ok response

/-- Modelled from the spec: `jsep:{type, sdp, trickle?}` establishment
payload (§6; the defining module is not under src/). -/
inductive JsepType where
  | offer
  | answer
  | pranswer
  | rollback

/-- Modelled from the spec: a JSEP establishment payload (§6). -/
structure Jsep where
  sdp : String
  trickle : Option Bool
  jsep_type : JsepType

/-- Serialization of the JSEP type tag. -/
def JsepType.toJson : JsepType → Json
  | .offer => .str "offer"
  | .answer => .str "answer"
  | .pranswer => .str "pranswer"
  | .rollback => .str "rollback"

/-- Serialization of a `Jsep` (`serde_json::to_value`), following the spec
shape `{type, sdp, trickle?}`; total, as serialization of this plain struct
cannot fail. -/
def Jsep.toJson (j : Jsep) : Json :=
  let base := Json.obj [("type", j.jsep_type.toJson), ("sdp", .str j.sdp)]
  match j.trickle with
  | some t => base.setKey "trickle" (.bool t)
  | none => base

/-- Modelled from the spec: an establishment payload is either a JSEP or an
RTP object (§4.G, §6); the RTP object is opaque to the transport and kept
as its serialized JSON. -/
inductive EstablishmentProtocol where
  | jsep (jsep : Jsep)
  | rtp (rtp : Json)

/-- Modelled from the spec: the `send_waiton_ack` input
`{session, handle, body, timeout}` (§4.F; `handle_msg.rs` is not under
src/).  Durations are milliseconds. -/
structure HandleMessageWithTimeout where
  session_id : Nat
  handle_id : Nat
  body : Json
  timeout : Nat

/-- Modelled from the spec: the `fire_and_forget_with_est` input
`{session, handle, body, establishment}` (§4.F). -/
structure HandleMessageWithEstablishment where
  session_id : Nat
  handle_id : Nat
  body : Json
  protocol : EstablishmentProtocol

/-- Modelled from the spec: the `send_waiton_ack_with_est` input
`{session, handle, body, establishment, timeout}` (§4.F). -/
structure HandleMessageWithEstablishmentAndTimeout where
  session_id : Nat
  handle_id : Nat
  body : Json
  timeout : Nat
  protocol : EstablishmentProtocol

/-- An outbound HTTP POST as configured by the reqwest builder chain:
target path, JSON body, and the request deadline — `some d` when the code
calls `.timeout(d)` on the builder, `none` when it does not. -/
structure HttpRequest where
  path : String
  body : Json
  deadline : Option Nat

/-- The establishment merge shared by `fire_and_forget_msg_with_est` and
`send_msg_waiton_ack_with_est` (restful_interface.rs lines 334-341 and
365-372): `request["jsep"] = to_value(jsep)?` for a JSEP payload,
`request["rtp"] = to_value(rtp)?` for an RTP payload. -/
def establishment_merge (request : Json) : EstablishmentProtocol → Json
  | .jsep jsep => request.setKey "jsep" jsep.toJson
  | .rtp rtp => request.setKey "rtp" rtp

/-- The POST issued by `RestfulInterface::send_msg_waiton_ack`
(restful_interface.rs lines 268-293): body
`{"janus": "message", "body": message.body}` decorated, sent to
`{base}/janus/{sid}/{hid}` with `.timeout(message.timeout)` applied. -/
def send_msg_waiton_ack_request (message : HandleMessageWithTimeout)
    (transaction : String) (apisecret : Option String) (baseurl : String) : HttpRequest :=
  let request := Json.obj [("janus", .str "message"), ("body", message.body)]
  let (request, _) := decorate_request apisecret transaction request
  { path := baseurl ++ "/janus/" ++ toString message.session_id ++ "/"
      ++ toString message.handle_id,
    body := request,
    deadline := some message.timeout }

/-- The POST issued by `RestfulInterface::fire_and_forget_msg_with_est`
(restful_interface.rs lines 322-351): body
`{"janus": "message", "body": message.body}` merged with the establishment
payload, then decorated; no `.timeout` is applied. -/
def fire_and_forget_msg_with_est_request (message : HandleMessageWithEstablishment)
    (transaction : String) (apisecret : Option String) (baseurl : String) : HttpRequest :=
  let request := Json.obj [("janus", .str "message"), ("body", message.body)]
  let request := establishment_merge request message.protocol
  let (request, _) := decorate_request apisecret transaction request
  { path := baseurl ++ "/janus/" ++ toString message.session_id ++ "/"
      ++ toString message.handle_id,
    body := request,
    deadline := none }

/-- The POST issued by `RestfulInterface::send_msg_waiton_ack_with_est`
(restful_interface.rs lines 353-385): body
`{"janus": "message", "body": message.body}` merged with the establishment
payload, then decorated.  The builder chain (lines 374-381) never calls
`.timeout(message.timeout)`, so the request carries no deadline. -/
def send_msg_waiton_ack_with_est_request
    (message : HandleMessageWithEstablishmentAndTimeout)
    (transaction : String) (apisecret : Option String) (baseurl : String) : HttpRequest :=
  let request := Json.obj [("janus", .str "message"), ("body", message.body)]
  let request := establishment_merge request message.protocol
  let (request, _) := decorate_request apisecret transaction request
  { path := baseurl ++ "/janus/" ++ toString message.session_id ++ "/"
      ++ toString message.handle_id,
    body := request,
    deadline := none }

/-- The receiving side of the `mpsc::unbounded_channel` created by
`attach`: `closed` when the receiver has been dropped, `buffer` the
messages delivered so far in order. -/
structure EventChannel where
  closed : Bool
  buffer : List JaResponse

/-- `tx.send(r)` on an unbounded sender: appends to the buffer and
returns `Ok` while the receiver is alive; returns `Err` (a rejected value)
once the receiver is dropped, leaving the channel unchanged. -/
def unbounded_send (ch : EventChannel) (response : JaResponse) : EventChannel × Bool :=
  if ch.closed then (ch, false)
  else ({ ch with buffer := ch.buffer ++ [response] }, true)

/-- The body of `for r in res { let _ = tx.send(r); }` inside the long-poll
task spawned by `attach` (restful_interface.rs lines 211-215): each decoded
response is sent in order and the send result is discarded. -/
def forward_responses (ch : EventChannel) : List JaResponse → EventChannel
  | [] => ch
  | response :: rest => forward_responses (unbounded_send ch response).1 rest

/-- Outcome of one long-poll GET of
`{base}/janus/{sid}?maxev=5` followed by `.json::<Vec<JaResponse>>()`:
the request may fail, the body may fail to decode, or a batch of responses
is decoded. -/
inductive PollOutcome where
  | netErr
  | decodeErr
  | ok (responses : List JaResponse)

/-- One iteration of the long-poll loop spawned by `attach`
(restful_interface.rs lines 204-218): on a successful GET and decode every
element is forwarded to the sink in order; the `if let Ok` guards make a
failed GET or a failed decode forward nothing. -/
def poll_iteration (ch : EventChannel) : PollOutcome → EventChannel
  | .ok responses => forward_responses ch responses
  | .netErr => ch
  | .decodeErr => ch

/-- Whether the long-poll loop runs another iteration after the given
outcome.  The Rust `loop` (restful_interface.rs lines 205-217) has no
`break` or `return` on any path, so every outcome continues. -/
def poll_loop_continues : PollOutcome → Bool
  | _ => true

/-- The task list of the `Exclusive` half of the transport's inner state;
tasks are identified abstractly by `Nat`. -/
structure ExclusiveTasks where
  tasks : List Nat

/-- The registration performed at the end of `attach`
(restful_interface.rs line 221): the spawned long-poll task is pushed onto
`exclusive.tasks` before `attach` returns. -/
def attach_register (exclusive : ExclusiveTasks) (task : Nat) : ExclusiveTasks :=
  { tasks := exclusive.tasks ++ [task] }

/-- `Drop for Exclusive` (restful_interface.rs lines 388-394):
`tasks.drain(..)` hands every registered task to `cancel()`, leaving the
list empty.  Returns (cancelled tasks, state after the drop). -/
def drop_exclusive (exclusive : ExclusiveTasks) : List Nat × ExclusiveTasks :=
  (exclusive.tasks, { tasks := [] })

theorem countField_setField_ne (fields : List (String × Json)) (k key : String) (v : Json)
    (h : k ≠ key) : countField (setField fields key v) k = countField fields k := by
  induction fields with
  | nil => simp [setField, countField, Ne.symm h]
  | cons kv rest ih =>
    obtain ⟨k', w⟩ := kv
    by_cases hk : k' = key
    · subst hk
      simp [setField, countField, Ne.symm h]
    · simp [setField, hk, countField, ih]

theorem removeField_append (l1 l2 : List (String × Json)) (key : String) :
    removeField (l1 ++ l2) key = removeField l1 key ++ removeField l2 key := by
  induction l1 with
  | nil => rfl
  | cons kv rest ih =>
    obtain ⟨k, w⟩ := kv
    by_cases hk : k = key
    · simp [removeField, hk, ih]
    · simp [removeField, hk, ih]

/-- Decoration leaves every field other than `apisecret` and `transaction`
untouched. -/
theorem getKey_decorate_ne (apisecret : Option String) (transaction : String)
    (request : Json) (k : String) (h1 : k ≠ "transaction") (h2 : k ≠ "apisecret") :
    ((decorate_request apisecret transaction request).1).getKey k = request.getKey k := by
  cases apisecret with
  | none => simp [decorate_request, getKey_setKey_ne _ _ _ _ h1]
  | some secret =>
    simp [decorate_request, getKey_setKey_ne _ _ _ _ h1, getKey_setKey_ne _ _ _ _ h2]

/-- C3 counterexample input: stamping the empty object on a transport with
a configured apisecret, then removing `transaction`, keeps the injected
`apisecret` field, so the caller's original body is not recovered. -/
theorem decorate_roundtrip_secret_cex :
    ((decorate_request (some "secret") "tx1" (Json.obj [])).1).removeKey "transaction"
      ≠ Json.obj [] := by
  intro h
  have h2 : ((decorate_request (some "secret") "tx1" (Json.obj [])).1).removeKey "transaction"
      = Json.obj [("apisecret", Json.str "secret")] := by rfl
  rw [h2] at h
  injection h with h3
  exact List.noConfusion h3

/-- C3 (amended): for an object request that does not already carry a
`transaction` field, on a transport with no apisecret configured, stamping
via `decorate_request` and then removing `transaction` yields the caller's
original body. -/
theorem decorate_roundtrip_no_secret (request : Json) (transaction : String)
    (hobj : request.isObj = true) (hfree : request.getKey "transaction" = none) :
    ((decorate_request none transaction request).1).removeKey "transaction" = request := by
  cases request with
  | obj fields =>
    simp only [Json.getKey] at hfree
    simp only [decorate_request, Json.setKey, Json.removeKey]
    rw [setField_of_getField_none _ _ _ hfree, removeField_append,
      removeField_of_getField_none _ _ hfree]
    simp [removeField]
  | null => simp [Json.isObj] at hobj
  | bool b => simp [Json.isObj] at hobj
  | num n => simp [Json.isObj] at hobj
  | str s => simp [Json.isObj] at hobj
  | arr elems => simp [Json.isObj] at hobj

/-- Witness for the amended C3 on a concrete request. -/
theorem decorate_roundtrip_no_secret_witness :
    ((decorate_request none "abc" (Json.obj [("janus", Json.str "create")])).1).removeKey
      "transaction" = Json.obj [("janus", Json.str "create")] :=
  decorate_roundtrip_no_secret (Json.obj [("janus", Json.str "create")]) "abc" rfl rfl

/-- C7: `decorate_request` on an object request (every call site passes a
`json!` object, whose keys are unique) returns the freshly generated token,
stamps exactly one `transaction` field holding that token, and, when an
apisecret is configured, carries it under `apisecret`; the secret is
written before the transaction is stamped, so the stamp also prevails if
they collide. -/
theorem decorate_stamps_transaction (apisecret : Option String) (transaction : String)
    (request : Json) (hobj : request.isObj = true)
    (huniq : request.countKey "transaction" ≤ 1) :
    (decorate_request apisecret transaction request).2 = transaction ∧
    ((decorate_request apisecret transaction request).1).getKey "transaction"
      = some (.str transaction) ∧
    ((decorate_request apisecret transaction request).1).countKey "transaction" = 1 ∧
    (∀ s, apisecret = some s →
      ((decorate_request apisecret transaction request).1).getKey "apisecret"
        = some (.str s)) := by
  cases request with
  | obj fields =>
    refine ⟨rfl, ?_, ?_, ?_⟩
    · cases apisecret with
      | none => simp [decorate_request, Json.setKey, Json.getKey, getField_setField_self]
      | some secret =>
        simp [decorate_request, Json.setKey, Json.getKey, getField_setField_self]
    · simp only [Json.countKey] at huniq
      cases apisecret with
      | none =>
        simp [decorate_request, Json.setKey, Json.countKey,
          countField_setField_self _ _ _ huniq]
      | some secret =>
        have hpres : countField (setField fields "apisecret" (.str secret)) "transaction"
            ≤ 1 := by
          rw [countField_setField_ne _ _ _ _ (by decide)]
          exact huniq
        simp [decorate_request, Json.setKey, Json.countKey,
          countField_setField_self _ _ _ hpres]
    · intro s hs
      subst hs
      simp [decorate_request, Json.setKey, Json.getKey,
        getField_setField_ne _ _ _ _ (by decide : "apisecret" ≠ "transaction"),
        getField_setField_self]
  | null => simp [Json.isObj] at hobj
  | bool b => simp [Json.isObj] at hobj
  | num n => simp [Json.isObj] at hobj
  | str s => simp [Json.isObj] at hobj
  | arr elems => simp [Json.isObj] at hobj

/-- Witness for C7 on a concrete request with a configured apisecret. -/
theorem decorate_stamps_transaction_witness :
    ((decorate_request (some "s3cr3t") "txn" (Json.obj [("janus", Json.str "create")])).1).getKey
      "transaction" = some (.str "txn") ∧
    ((decorate_request (some "s3cr3t") "txn"
      (Json.obj [("janus", Json.str "create")])).1).countKey "transaction" = 1 ∧
    ((decorate_request (some "s3cr3t") "txn"
      (Json.obj [("janus", Json.str "create")])).1).getKey "apisecret"
      = some (.str "s3cr3t") := by
  have h := decorate_stamps_transaction (some "s3cr3t") "txn"
    (Json.obj [("janus", Json.str "create")]) rfl (by decide)
  exact ⟨h.2.1, h.2.2.1, h.2.2.2 "s3cr3t" rfl⟩

/-- C1 counterexample input: when the server's synchronous HTTP reply to
the message POST is an `Ack` (as Janus sends for asynchronous plugins),
`internal_send_msg_waiton_rsp` returns it without error even though its
`janus` is not terminal — refuting the claim as stated. -/
theorem waiton_rsp_ack_cex :
    internal_send_msg_waiton_rsp (.ok { janus := .ack })
      = .ok { janus := .ack } ∧
    ResponseType.isTerminal .ack = false :=
  ⟨rfl, rfl⟩

/-- C1 (amended): the REST `internal_send_msg_waiton_rsp` returns the
server's synchronous HTTP reply verbatim, whatever its `janus` variant
(including `Ack`); no terminal-variant filtering is performed, and a
transport failure is propagated as an error. -/
theorem waiton_rsp_returns_reply_verbatim :
    (∀ rsp : JaResponse, internal_send_msg_waiton_rsp (.ok rsp) = .ok rsp) ∧
    (∀ e : HttpError, internal_send_msg_waiton_rsp (.error e)
      = .error (.transport e)) :=
  ⟨fun _ => rfl, fun _ => rfl⟩

/-- C2 counterexample input: a failed HTTP send makes `destory` return the
transport error rather than `Ok(())`, refuting the claim that transport
errors are never propagated. -/
theorem destory_error_cex :
    destory (.error .connect) ≠ .ok () := by
  intro h
  exact Except.noConfusion h

/-- C2 (amended): `destory` is best-effort only about the reply: the body
of a completed POST is discarded unread, so any server reply — including a
Janus error — yields `Ok(())`; but a transport failure of the send itself
is propagated to the caller via `?`. -/
theorem destory_discards_reply :
    (∀ rsp : JaResponse, destory (.ok rsp) = .ok ()) ∧
    (∀ e : HttpError, destory (.error e) = .error (.transport e)) :=
  ⟨fun _ => rfl, fun _ => rfl⟩

/-- C4: the builder chain of `send_msg_waiton_ack_with_est` never applies
`.timeout(message.timeout)`, so the outbound POST carries no deadline —
whatever timeout the message holds — while the sibling
`send_msg_waiton_ack` does apply the caller's timeout. -/
theorem waiton_ack_with_est_drops_timeout
    (message : HandleMessageWithEstablishmentAndTimeout)
    (plain : HandleMessageWithTimeout)
    (transaction : String) (apisecret : Option String) (baseurl : String) :
    (send_msg_waiton_ack_with_est_request message transaction apisecret baseurl).deadline
      = none ∧
    (send_msg_waiton_ack_request plain transaction apisecret baseurl).deadline
      = some plain.timeout :=
  ⟨rfl, rfl⟩

/-- C5: `create` maps a `Success{data{id}}` reply to exactly that id, an
`Error{code, reason}` reply to a `JanusError` carrying code and reason
verbatim, and never returns a session id on any other reply variant. -/
theorem create_reply_mapping (rsp : JaResponse) :
    (∀ d, rsp.janus = .success (.data d) → create (.ok rsp) = .ok d.id) ∧
    (∀ err, rsp.janus = .error err →
      create (.ok rsp) = .error (.janusError err.code err.reason)) ∧
    ((∀ d, rsp.janus ≠ .success (.data d)) →
      ∀ idv, create (.ok rsp) ≠ .ok idv) := by
  obtain ⟨janus, tr, sid, snd⟩ := rsp
  refine ⟨?_, ?_, ?_⟩
  · intro d hd
    simp only at hd
    subst hd
    rfl
  · intro err herr
    simp only at herr
    subst herr
    rfl
  · intro hne idv hc
    cases janus with
    | success s =>
      cases s with
      | data d => exact hne d rfl
      | plugindata pd => exact Except.noConfusion hc
    | ack => exact Except.noConfusion hc
    | error err => exact Except.noConfusion hc
    | event => exact Except.noConfusion hc
    | serverInfo => exact Except.noConfusion hc
    | detached => exact Except.noConfusion hc
    | webrtcup => exact Except.noConfusion hc
    | media => exact Except.noConfusion hc
    | slowlink => exact Except.noConfusion hc
    | hangup => exact Except.noConfusion hc
    | trickle => exact Except.noConfusion hc
    | timeout => exact Except.noConfusion hc
    | keepalive => exact Except.noConfusion hc

/-- Witness for C5 on concrete replies: a success with id 42 yields 42, the
spec's scenario-5 error yields the verbatim `JanusError`, and an `Ack`
reply never yields a session id. -/
theorem create_reply_mapping_witness :
    create (.ok { janus := .success (.data ⟨42⟩) }) = .ok 42 ∧
    create (.ok { janus := .error ⟨458, "No such session"⟩ })
      = .error (.janusError 458 "No such session") ∧
    create (.ok { janus := .ack }) ≠ .ok 7 :=
  ⟨(create_reply_mapping _).1 ⟨42⟩ rfl,
   (create_reply_mapping _).2.1 ⟨458, "No such session"⟩ rfl,
   (create_reply_mapping _).2.2 (fun _ h => ResponseType.noConfusion h) 7⟩

theorem forward_responses_open (ch : EventChannel) (l : List JaResponse)
    (h : ch.closed = false) :
    forward_responses ch l = { closed := false, buffer := ch.buffer ++ l } := by
  induction l generalizing ch with
  | nil =>
    obtain ⟨c, b⟩ := ch
    simp only at h
    subst h
    simp [forward_responses]
  | cons r rest ih =>
    obtain ⟨c, b⟩ := ch
    simp only at h
    subst h
    simp [forward_responses, unbounded_send, ih, List.append_assoc]

theorem forward_responses_closed (ch : EventChannel) (l : List JaResponse)
    (h : ch.closed = true) : forward_responses ch l = ch := by
  induction l with
  | nil => rfl
  | cons r rest ih => simp [forward_responses, unbounded_send, h, ih]

/-- C6: one iteration of the long-poll task on a live receiver appends
every decoded response to the sink in array order and leaves the channel
open; a network error forwards nothing and leaves the channel untouched;
and the loop continues after every outcome (it has no exit). -/
theorem attach_poll_forwards_in_order (ch : EventChannel) (responses : List JaResponse)
    (h : ch.closed = false) :
    (poll_iteration ch (.ok responses)).buffer = ch.buffer ++ responses ∧
    (poll_iteration ch (.ok responses)).closed = false ∧
    poll_iteration ch .netErr = ch ∧
    (∀ o, poll_loop_continues o = true) := by
  refine ⟨?_, ?_, rfl, fun _ => rfl⟩ <;>
    simp [poll_iteration, forward_responses_open ch responses h]

/-- Witness for C6: three polled events reach an empty live sink in
order. -/
theorem attach_poll_forwards_in_order_witness :
    (poll_iteration ⟨false, []⟩
      (.ok [{ janus := .event }, { janus := .event }, { janus := .hangup }])).buffer
      = [{ janus := .event }, { janus := .event }, { janus := .hangup }] :=
  (attach_poll_forwards_in_order ⟨false, []⟩
    [{ janus := .event }, { janus := .event }, { janus := .hangup }] rfl).1

/-- C10: once the receiver is dropped, every `tx.send` is a discarded
`Err`: an iteration of the long-poll loop changes nothing, does not panic
(it is a total function of the outcome), and the loop still continues, so
later polls keep attempting delivery. -/
theorem closed_channel_poll_noop (ch : EventChannel) (o : PollOutcome)
    (h : ch.closed = true) :
    poll_iteration ch o = ch ∧ poll_loop_continues o = true := by
  cases o with
  | ok responses => exact ⟨forward_responses_closed ch responses h, rfl⟩
  | netErr => exact ⟨rfl, rfl⟩
  | decodeErr => exact ⟨rfl, rfl⟩

/-- Witness for C10: a delivered batch into a dropped receiver leaves the
channel as it was. -/
theorem closed_channel_poll_noop_witness :
    poll_iteration ⟨true, []⟩ (.ok [{ janus := .event }]) = ⟨true, []⟩ :=
  (closed_channel_poll_noop ⟨true, []⟩ (.ok [{ janus := .event }]) rfl).1

theorem foldl_attach_register_tasks (init : ExclusiveTasks) (spawned : List Nat) :
    (spawned.foldl attach_register init).tasks = init.tasks ++ spawned := by
  induction spawned generalizing init with
  | nil => simp
  | cons t rest ih => simp [List.foldl_cons, ih, attach_register, List.append_assoc]

/-- C9: each attach pushes its spawned long-poll task onto the task list
before returning, the list accumulates every spawned task, and `Drop for
Exclusive` drains that list handing every registered task to `cancel()`,
leaving none behind. -/
theorem attach_tasks_cancelled_on_drop (init : ExclusiveTasks) (spawned : List Nat)
    (t : Nat) (h : t ∈ spawned) :
    t ∈ (attach_register init t).tasks ∧
    t ∈ (drop_exclusive (spawned.foldl attach_register init)).1 ∧
    (drop_exclusive (spawned.foldl attach_register init)).2.tasks = [] := by
  refine ⟨?_, ?_, rfl⟩
  · simp [attach_register]
  · simp [drop_exclusive, foldl_attach_register_tasks, h]

/-- Witness for C9: a single attached task is cancelled by the drop. -/
theorem attach_tasks_cancelled_on_drop_witness :
    7 ∈ (drop_exclusive ([7].foldl attach_register ⟨[]⟩)).1 ∧
    (drop_exclusive ([7].foldl attach_register ⟨[]⟩)).2.tasks = [] :=
  ⟨(attach_tasks_cancelled_on_drop ⟨[]⟩ [7] 7 (by simp)).2.1,
   (attach_tasks_cancelled_on_drop ⟨[]⟩ [7] 7 (by simp)).2.2⟩

theorem est_body_decorated_getKey (body : Json) (proto : EstablishmentProtocol)
    (transaction : String) (apisecret : Option String) :
    (((decorate_request apisecret transaction (establishment_merge
        (Json.obj [("janus", .str "message"), ("body", body)]) proto)).1).getKey "body"
      = some body) ∧
    (∀ j, proto = .jsep j → ((decorate_request apisecret transaction (establishment_merge
        (Json.obj [("janus", .str "message"), ("body", body)]) proto)).1).getKey "jsep"
      = some j.toJson) ∧
    (∀ r, proto = .rtp r → ((decorate_request apisecret transaction (establishment_merge
        (Json.obj [("janus", .str "message"), ("body", body)]) proto)).1).getKey "rtp"
      = some r) := by
  refine ⟨?_, ?_, ?_⟩
  · rw [getKey_decorate_ne _ _ _ _ (by decide) (by decide)]
    cases proto with
    | jsep j =>
      simp only [establishment_merge]
      rw [getKey_setKey_ne _ _ _ _ (by decide)]
      rfl
    | rtp r =>
      simp only [establishment_merge]
      rw [getKey_setKey_ne _ _ _ _ (by decide)]
      rfl
  · intro j hj
    subst hj
    rw [getKey_decorate_ne _ _ _ _ (by decide) (by decide)]
    exact getKey_setKey_self (Json.obj [("janus", .str "message"), ("body", body)])
      "jsep" j.toJson rfl
  · intro r hr
    subst hr
    rw [getKey_decorate_ne _ _ _ _ (by decide) (by decide)]
    exact getKey_setKey_self (Json.obj [("janus", .str "message"), ("body", body)])
      "rtp" r rfl

/-- C8: both establishment-carrying operations build a request holding the
caller's payload under `body` and the establishment merged alongside it — a
JSEP payload under `jsep`, an RTP payload under `rtp`. -/
theorem with_est_merges_establishment
    (m : HandleMessageWithEstablishment) (mt : HandleMessageWithEstablishmentAndTimeout)
    (transaction : String) (apisecret : Option String) (baseurl : String) :
    ((fire_and_forget_msg_with_est_request m transaction apisecret baseurl).body.getKey
      "body" = some m.body) ∧
    ((send_msg_waiton_ack_with_est_request mt transaction apisecret baseurl).body.getKey
      "body" = some mt.body) ∧
    (∀ j, m.protocol = .jsep j →
      (fire_and_forget_msg_with_est_request m transaction apisecret baseurl).body.getKey
        "jsep" = some j.toJson) ∧
    (∀ r, m.protocol = .rtp r →
      (fire_and_forget_msg_with_est_request m transaction apisecret baseurl).body.getKey
        "rtp" = some r) ∧
    (∀ j, mt.protocol = .jsep j →
      (send_msg_waiton_ack_with_est_request mt transaction apisecret baseurl).body.getKey
        "jsep" = some j.toJson) ∧
    (∀ r, mt.protocol = .rtp r →
      (send_msg_waiton_ack_with_est_request mt transaction apisecret baseurl).body.getKey
        "rtp" = some r) := by
  obtain ⟨sid, hid, body, proto⟩ := m
  obtain ⟨sid2, hid2, body2, tmo2, proto2⟩ := mt
  exact ⟨(est_body_decorated_getKey body proto transaction apisecret).1,
    (est_body_decorated_getKey body2 proto2 transaction apisecret).1,
    fun j hj => (est_body_decorated_getKey body proto transaction apisecret).2.1 j hj,
    fun r hr => (est_body_decorated_getKey body proto transaction apisecret).2.2 r hr,
    fun j hj => (est_body_decorated_getKey body2 proto2 transaction apisecret).2.1 j hj,
    fun r hr => (est_body_decorated_getKey body2 proto2 transaction apisecret).2.2 r hr⟩

/-- Witness for C8: a concrete JSEP offer lands under `jsep` in the
fire-and-forget request and a concrete RTP payload lands under `rtp` in
the waiton-ack request. -/
theorem with_est_merges_establishment_witness :
    (fire_and_forget_msg_with_est_request
      ⟨1, 2, Json.obj [], .jsep ⟨"v=0", some false, .offer⟩⟩
      "t1" none "http://example").body.getKey "jsep"
      = some (Jsep.toJson ⟨"v=0", some false, .offer⟩) ∧
    (send_msg_waiton_ack_with_est_request
      ⟨1, 2, Json.obj [], 5, .rtp (Json.obj [("port", Json.num 9)])⟩
      "t1" none "http://example").body.getKey "rtp"
      = some (Json.obj [("port", Json.num 9)]) :=
  ⟨(with_est_merges_establishment
      ⟨1, 2, Json.obj [], .jsep ⟨"v=0", some false, .offer⟩⟩
      ⟨1, 2, Json.obj [], 5, .rtp (Json.obj [("port", Json.num 9)])⟩
      "t1" none "http://example").2.2.1 ⟨"v=0", some false, .offer⟩ rfl,
   (with_est_merges_establishment
      ⟨1, 2, Json.obj [], .jsep ⟨"v=0", some false, .offer⟩⟩
      ⟨1, 2, Json.obj [], 5, .rtp (Json.obj [("port", Json.num 9)])⟩
      "t1" none "http://example").2.2.2.2.2 (Json.obj [("port", Json.num 9)]) rfl⟩

end Jarust
